import Mathlib

/-! # CDataPacket native codec (src/native/CDataPacket.c)

A shallow embedding of the JNI translation unit `CDataPacket.c` and of the
constants it defines, followed by the properties of the packet codec that the
specification states about it.

The translation unit consists of

* sixteen object-like macros (`NULL_VALUE`, `HEADER_SIZE`, `FORMAT_*`), and
* seven JNI entry points, each of whose bodies is the single statement
  `return NULL;`.

It declares no file-scope variable.  A JNI entry point receives the thread's
`JNIEnv *` and can change the state of the virtual machine only through it, so
each entry point is embedded as a function from the environment and its
arguments to the returned reference and the environment after the call.
-/

namespace CDataPacket

/-! ## The constants of CDataPacket.c, lines 5-21

Every macro is written `#define NAME = literal;`, so its replacement list is
the three tokens `=`, the literal and `;`.  No macro is expanded anywhere in
the translation unit.  The embedding takes the literal of each replacement
list as the value of the constant. -/

/-- Null value (line 5). -/
def NULL_VALUE : String := "null"

/-- Size of the header (line 6). -/
def HEADER_SIZE : Nat := 21

/-- Null (line 7). -/
def FORMAT_NULL : Nat := 0x40

/-- Boolean (line 8). -/
def FORMAT_BOOL : Nat := 0x41

/-- Byte, 0-255 (line 9). -/
def FORMAT_BYTE : Nat := 0x42

/-- Character (line 10). -/
def FORMAT_CHAR : Nat := 0x43

/-- Short integer (line 11). -/
def FORMAT_SHORT : Nat := 0x44

/-- Integer (line 12). -/
def FORMAT_INT : Nat := 0x45

/-- Float (line 13). -/
def FORMAT_FLOAT : Nat := 0x46

/-- Double (line 14). -/
def FORMAT_DOUBLE : Nat := 0x47

/-- Long (line 15). -/
def FORMAT_LONG : Nat := 0x48

/-- String (line 16). -/
def FORMAT_STRING : Nat := 0x49

/-- Array of objects (line 17). -/
def FORMAT_ARRAY : Nat := 0x50

/-- List of objects (line 18). -/
def FORMAT_LIST : Nat := 0x51

/-- JSON object (line 19). -/
def FORMAT_JSON : Nat := 0x52

/-- JSON array (line 20). -/
def FORMAT_JSON_ARRAY : Nat := 0x53

/-- Remote exception (line 21). -/
def FORMAT_REMOTE_EX : Nat := 0x54

/-- The fifteen `FORMAT_*` macro names of lines 7-21, in source order. -/
inductive Format
  | NULL
  | BOOL
  | BYTE
  | CHAR
  | SHORT
  | INT
  | FLOAT
  | DOUBLE
  | LONG
  | STRING
  | ARRAY
  | LIST
  | JSON
  | JSON_ARRAY
  | REMOTE_EX
  deriving DecidableEq, Repr, Fintype

/-- The code that the source gives to each `FORMAT_*` name. -/
def Format.code : Format → Nat
  | .NULL => FORMAT_NULL
  | .BOOL => FORMAT_BOOL
  | .BYTE => FORMAT_BYTE
  | .CHAR => FORMAT_CHAR
  | .SHORT => FORMAT_SHORT
  | .INT => FORMAT_INT
  | .FLOAT => FORMAT_FLOAT
  | .DOUBLE => FORMAT_DOUBLE
  | .LONG => FORMAT_LONG
  | .STRING => FORMAT_STRING
  | .ARRAY => FORMAT_ARRAY
  | .LIST => FORMAT_LIST
  | .JSON => FORMAT_JSON
  | .JSON_ARRAY => FORMAT_JSON_ARRAY
  | .REMOTE_EX => FORMAT_REMOTE_EX

/-- The `FORMAT_*` names in the order of lines 7-21. -/
def Format.all : List Format :=
  [.NULL, .BOOL, .BYTE, .CHAR, .SHORT, .INT, .FLOAT, .DOUBLE, .LONG, .STRING,
   .ARRAY, .LIST, .JSON, .JSON_ARRAY, .REMOTE_EX]

/-! ## Values, errors and the wire header of the specification

The source has no declaration for these: its entry points take and return
untyped JNI references.  They are needed to write down the inputs and the
expected results that the specification talks about. -/

/-- A byte of a Java `byte[]`, as its unsigned bit pattern. -/
abbrev jbyte := Fin 256

/-- Modelled from the spec: the `Value` tagged union of section 3, which the
source does not declare.  `float` and `double` carry the IEEE754 bit pattern. -/
inductive Value
  | null
  | bool (b : Bool)
  | byte (n : Fin 256)
  | char (codePoint : Nat)
  | short (n : Int)
  | int (n : Int)
  | float (bits : Nat)
  | double (bits : Nat)
  | long (n : Int)
  | string (s : String)
  | array (elems : List Value)
  | list (elems : List Value)
  | object (fields : List (String × Value))
  | objectArray (objects : List (List (String × Value)))
  | remoteFault (faultClass : String) (message : String) (cause : Option Value)

/-- Modelled from the spec: the registry of section 4.1, which pairs each
variant of `Value` with one `FORMAT_*` name (OBJECT with JSON, OBJECT_ARRAY with
JSON_ARRAY, REMOTE_FAULT with REMOTE_EX).  The source holds only the codes. -/
def Value.format : Value → Format
  | .null => .NULL
  | .bool _ => .BOOL
  | .byte _ => .BYTE
  | .char _ => .CHAR
  | .short _ => .SHORT
  | .int _ => .INT
  | .float _ => .FLOAT
  | .double _ => .DOUBLE
  | .long _ => .LONG
  | .string _ => .STRING
  | .array _ => .ARRAY
  | .list _ => .LIST
  | .object _ => .JSON
  | .objectArray _ => .JSON_ARRAY
  | .remoteFault _ _ _ => .REMOTE_EX

/-- Modelled from the spec: the error kinds of section 7, none of which the
source declares or raises. -/
inductive ErrorKind
  | UnknownTag
  | TruncatedBuffer
  | LengthMismatch
  | DuplicateKey
  | DepthExceeded
  | OversizedPayload
  | StreamClosed
  deriving DecidableEq, Repr

/-- Modelled from the spec: the big-endian encoding of `n` on `width` bytes
(section 6: all multi-byte integers are big-endian). -/
def bigEndian : Nat → Nat → List jbyte
  | 0, _ => []
  | width + 1, n => Fin.ofNat (n / 256 ^ width) :: bigEndian width n

/-- Modelled from the spec: the header layout of section 6 (1 byte of format
tag, 8 bytes of payload length, 12 reserved bytes filled with zero).  The
source fixes no layout: `makeHeaderBytes` returns `NULL`. -/
def encodeHeader (formatTag payloadLength : Nat) : List jbyte :=
  Fin.ofNat formatTag :: (bigEndian 8 payloadLength ++ List.replicate 12 0)

/-! ## JNI references and environment -/

/-- The Java objects that the signatures of the entry points mention. -/
inductive JObject
  -- a java.lang.Object that the adapter reads as the value v
  | boxed (v : Value)
  -- a byte[]
  | byteArray (bytes : List jbyte)
  -- a java.lang.String
  | string (s : String)
  -- a com.labs.rpc.CDataPacket holding a format tag and a payload
  | dataPacket (formatTag : Nat) (payload : List jbyte)
  -- a java.io.InputStream that will deliver the bytes of pending and then end
  | inputStream (pending : List jbyte)
  -- a java.lang.Class
  | classObject (name : String)

/-- A JNI reference, `jobject` of jni.h: `NULL` or a reference to an object. -/
abbrev jobject := Option JObject

/-- In C, jni.h declares `jclass` as another name of `jobject`. -/
abbrev jclass := jobject

/-- In C, jni.h declares `jstring` as another name of `jobject`. -/
abbrev jstring := jobject

/-- In C, jni.h declares `jbyteArray` as another name of `jobject`. -/
abbrev jbyteArray := jobject

/-- The 32-bit signed `jint` of jni.h; no entry point computes with it. -/
abbrev jint := Int

/-- The null reference. -/
def NULL : jobject := none

/-- An exception object: one of the codec errors of the specification, or any
other throwable, named by its class. -/
inductive Throwable
  | codec (kind : ErrorKind)
  | other (className : String)
  deriving DecidableEq, Repr

/-- The state a native method reaches through `JNIEnv *`: the exception
pending in the calling thread, if any. -/
structure JNIEnv where
  pending : Option Throwable
  deriving DecidableEq, Repr

/-! ## The seven entry points, CDataPacket.c lines 28-84 -/

/-- Lines 28-30: `packObject`, signature `(Ljava/lang/Object;)[B`. -/
def Java_com_labs_rpc_CDataPacket_packObject
    (env : JNIEnv) (_cls : jclass) (_obj : jobject) : jbyteArray × JNIEnv :=
  (NULL, env)

/-- Lines 37-39: `unpackObject`, signature
`(Ljava/lang/String;)Ljava/lang/Object;`. -/
def Java_com_labs_rpc_CDataPacket_unpackObject
    (env : JNIEnv) (_cls : jclass) (_objData : jstring) : jobject × JNIEnv :=
  (NULL, env)

/-- Lines 46-48: `makeHeaderBytes`, signature `(I)[B`. -/
def Java_com_labs_rpc_CDataPacket_makeHeaderBytes
    (env : JNIEnv) (_obj : jobject) (_payloadSize : jint) : jbyteArray × JNIEnv :=
  (NULL, env)

/-- Lines 55-57: `makePacketBytes`, signature `([B[B)[B`. -/
def Java_com_labs_rpc_CDataPacket_makePacketBytes
    (env : JNIEnv) (_obj : jobject) (_headerBytes : jbyteArray)
    (_payloadBytes : jbyteArray) : jbyteArray × JNIEnv :=
  (NULL, env)

/-- Lines 64-66: `getBytes`, signature `()[B`. -/
def Java_com_labs_rpc_CDataPacket_getBytes
    (env : JNIEnv) (_obj : jobject) : jbyteArray × JNIEnv :=
  (NULL, env)

/-- Lines 73-75: `fromBytes`, signature `([B)Lcom/labs/rpc/CDataPacket;`. -/
def Java_com_labs_rpc_CDataPacket_fromBytes
    (env : JNIEnv) (_cls : jclass) (_bytes : jbyteArray) : jobject × JNIEnv :=
  (NULL, env)

/-- Lines 82-84: `fromStream`, signature
`(Ljava/io/InputStream;)Lcom/labs/rpc/CDataPacket;`. -/
def Java_com_labs_rpc_CDataPacket_fromStream
    (env : JNIEnv) (_obj : jobject) (_stream : jobject) : jobject × JNIEnv :=
  (NULL, env)

/-! ## Calls as seen from Java -/

/-- A call of one of the seven native methods together with its arguments
(the receiver or class first, as in the C parameter lists). -/
inductive Call
  | packObject (cls : jclass) (obj : jobject)
  | unpackObject (cls : jclass) (objData : jstring)
  | makeHeaderBytes (obj : jobject) (payloadSize : jint)
  | makePacketBytes (obj : jobject) (headerBytes : jbyteArray) (payloadBytes : jbyteArray)
  | getBytes (obj : jobject)
  | fromBytes (cls : jclass) (bytes : jbyteArray)
  | fromStream (obj : jobject) (stream : jobject)

/-- Dispatch of a call to the C function that implements it. -/
def Call.run (env : JNIEnv) : Call → jobject × JNIEnv
  | .packObject cls obj => Java_com_labs_rpc_CDataPacket_packObject env cls obj
  | .unpackObject cls objData => Java_com_labs_rpc_CDataPacket_unpackObject env cls objData
  | .makeHeaderBytes obj payloadSize =>
      Java_com_labs_rpc_CDataPacket_makeHeaderBytes env obj payloadSize
  | .makePacketBytes obj headerBytes payloadBytes =>
      Java_com_labs_rpc_CDataPacket_makePacketBytes env obj headerBytes payloadBytes
  | .getBytes obj => Java_com_labs_rpc_CDataPacket_getBytes env obj
  | .fromBytes cls bytes => Java_com_labs_rpc_CDataPacket_fromBytes env cls bytes
  | .fromStream obj stream => Java_com_labs_rpc_CDataPacket_fromStream env obj stream

/-- The environment after a sequence of calls made one after the other. -/
def runAll (env : JNIEnv) : List Call → JNIEnv
  | [] => env
  | c :: rest => runAll (c.run env).2 rest

/-- What the Java caller of a native method observes. -/
inductive Outcome
  | returned (ref : jobject)
  | thrown (t : Throwable)

/-- The outcome of a native call: a pending exception is thrown to the caller
when the method returns, otherwise the returned reference is delivered. -/
def outcome (r : jobject × JNIEnv) : Outcome :=
  match r.2.pending with
  | some t => .thrown t
  | none => .returned r.1

/-- The environment in which the virtual machine enters a native method: no
exception is pending. -/
def JNIEnv.clean : JNIEnv := ⟨none⟩

/-- The round trip of the specification: `unpackObject` applied to the result
of `packObject`, in the environment that `packObject` leaves. -/
def roundTrip (env : JNIEnv) (cls : jclass) (obj : jobject) : jobject × JNIEnv :=
  let packed := Java_com_labs_rpc_CDataPacket_packObject env cls obj
  Java_com_labs_rpc_CDataPacket_unpackObject packed.2 cls packed.1

/-! ## The concrete packets of the specification's scenarios -/

/-- The class reference passed to the static native methods. -/
def packetClass : jclass := some (.classObject "com/labs/rpc/CDataPacket")

/-- The host object for `Int(42)`. -/
def int42 : jobject := some (.boxed (.int 42))

/-- The payload of `Int(42)`: 42 on four bytes, big-endian (00 00 00 2A). -/
def int42Payload : List jbyte := [0x00, 0x00, 0x00, 0x2A]

/-- The packet of the `Int(42)` scenario: header with tag `FORMAT_INT` and
payload length 4, then the payload. -/
def int42Packet : List jbyte := encodeHeader FORMAT_INT 4 ++ int42Payload

/-- A packet whose header declares 100 payload bytes and that supplies 50. -/
def truncatedPacket : List jbyte := encodeHeader FORMAT_INT 100 ++ List.replicate 50 0

/-- A packet whose format tag byte is 0xFF, with an empty payload. -/
def unknownTagPacket : List jbyte := encodeHeader 0xFF 0

/-- A well-formed packet for `Null`: tag `FORMAT_NULL`, empty payload. -/
def nullPacket : List jbyte := encodeHeader FORMAT_NULL 0

/-- A `CDataPacket` instance, the receiver of the instance methods. -/
def int42PacketObject : jobject := some (.dataPacket FORMAT_INT int42Payload)

/-! ## Lemmas shared by the results below -/

theorem run_eq (env : JNIEnv) (c : Call) : c.run env = (NULL, env) := by
  cases c <;> rfl

theorem runAll_eq (env : JNIEnv) (calls : List Call) : runAll env calls = env := by
  induction calls with
  | nil => rfl
  | cons c rest ih => simpa [runAll, run_eq] using ih

theorem null_ne_some (o : JObject) : NULL ≠ some o := by
  intro h
  cases h

theorem code_ne_0xFF (f : Format) : f.code ≠ 0xFF := by
  cases f <;> decide

theorem encodeHeader_length (formatTag payloadLength : Nat) :
    (encodeHeader formatTag payloadLength).length = 21 := by
  simp [encodeHeader, bigEndian]

/-! ## The type tag registry -/

/-- C8: the fifteen FORMAT_* codes are NULL 0x40 through STRING 0x49 and ARRAY
0x50 through REMOTE_EX 0x54, they are pairwise distinct and each is a one-byte
value, so the map from the fifteen variants to tags is injective, variants of
different kinds never share a tag, and a tag names at most one variant. -/
theorem format_registry_one_to_one :
    Format.all.map Format.code
        = [0x40, 0x41, 0x42, 0x43, 0x44, 0x45, 0x46, 0x47, 0x48, 0x49,
           0x50, 0x51, 0x52, 0x53, 0x54]
      ∧ (Format.all.map Format.code).Nodup
      ∧ (∀ f : Format, f ∈ Format.all)
      ∧ Fintype.card Format = 15
      ∧ (∀ f : Format, f.code < 256)
      ∧ Function.Injective Format.code
      ∧ (∀ f : Format, ∃ v : Value, v.format = f)
      ∧ (∀ v w : Value, v.format.code = w.format.code ↔ v.format = w.format)
      ∧ (∀ (t : Nat) (f g : Format), f.code = t → g.code = t → f = g) := by
  have inj : Function.Injective Format.code := by
    intro f g h
    cases f <;> cases g <;> first | rfl | (exact absurd h (by decide))
  refine ⟨by decide, by decide, ?_, by decide, ?_, inj, ?_, ?_, ?_⟩
  · intro f
    cases f <;> decide
  · intro f
    cases f <;> decide
  · intro f
    cases f
    · exact ⟨.null, rfl⟩
    · exact ⟨.bool true, rfl⟩
    · exact ⟨.byte 0, rfl⟩
    · exact ⟨.char 0, rfl⟩
    · exact ⟨.short 0, rfl⟩
    · exact ⟨.int 0, rfl⟩
    · exact ⟨.float 0, rfl⟩
    · exact ⟨.double 0, rfl⟩
    · exact ⟨.long 0, rfl⟩
    · exact ⟨.string "", rfl⟩
    · exact ⟨.array [], rfl⟩
    · exact ⟨.list [], rfl⟩
    · exact ⟨.object [], rfl⟩
    · exact ⟨.objectArray [], rfl⟩
    · exact ⟨.remoteFault "" "" none, rfl⟩
  · intro v w
    exact ⟨fun h => inj h, fun h => by rw [h]⟩
  · intro t f g hf hg
    exact inj (hf.trans hg.symm)

/-! ## The entry points -/

/-- C10: each of the seven entry points returns the null reference for every
input and leaves the environment as it found it, so no byte array and no
decoded value is ever produced, and any two calls, whatever their entry point
and arguments, give the caller the same outcome. -/
theorem every_entry_point_returns_null :
    (∀ env cls obj, Java_com_labs_rpc_CDataPacket_packObject env cls obj = (NULL, env))
      ∧ (∀ env cls objData,
          Java_com_labs_rpc_CDataPacket_unpackObject env cls objData = (NULL, env))
      ∧ (∀ env obj payloadSize,
          Java_com_labs_rpc_CDataPacket_makeHeaderBytes env obj payloadSize = (NULL, env))
      ∧ (∀ env obj headerBytes payloadBytes,
          Java_com_labs_rpc_CDataPacket_makePacketBytes env obj headerBytes payloadBytes
            = (NULL, env))
      ∧ (∀ env obj, Java_com_labs_rpc_CDataPacket_getBytes env obj = (NULL, env))
      ∧ (∀ env cls bytes, Java_com_labs_rpc_CDataPacket_fromBytes env cls bytes = (NULL, env))
      ∧ (∀ env obj stream,
          Java_com_labs_rpc_CDataPacket_fromStream env obj stream = (NULL, env))
      ∧ (∀ (env : JNIEnv) (c : Call) (o : JObject), (c.run env).1 ≠ some o)
      ∧ (∀ c d : Call, outcome (c.run JNIEnv.clean) = outcome (d.run JNIEnv.clean))
      ∧ (∀ c : Call, outcome (c.run JNIEnv.clean) = .returned NULL) := by
  refine ⟨fun _ _ _ => rfl, fun _ _ _ => rfl, fun _ _ _ => rfl, fun _ _ _ _ => rfl,
    fun _ _ => rfl, fun _ _ _ => rfl, fun _ _ _ => rfl, ?_, ?_, ?_⟩
  · intro env c o
    rw [run_eq]
    exact null_ne_some o
  · intro c d
    rw [run_eq, run_eq]
  · intro c
    rw [run_eq]
    rfl

/-- C9: every entry point is a function of its arguments alone: the reference
it returns does not depend on the environment, a call returns the same
reference after any sequence of other calls as before it, and neither a single
call nor a sequence of calls changes the environment shared between calls. -/
theorem entry_points_stateless (env env2 : JNIEnv) (between : List Call) (c : Call) :
    (c.run env).1 = (c.run env2).1
      ∧ (c.run (runAll env between)).1 = (c.run env).1
      ∧ c.run (runAll env between) = c.run env
      ∧ (c.run env).2 = env
      ∧ runAll env between = env
      ∧ runAll env (c :: between ++ [c]) = env := by
  refine ⟨?_, ?_, ?_, ?_, ?_, ?_⟩
  · rw [run_eq, run_eq]
  · rw [runAll_eq]
  · rw [runAll_eq]
  · rw [run_eq]
  · exact runAll_eq env between
  · exact runAll_eq env _

/-- C5: for every byte sequence P, every class and receiver and every
environment, fromBytes on the byte array P and fromStream on a stream that
delivers exactly the bytes of P return the same reference, leave the same
environment and give the caller the same outcome. -/
theorem fromBytes_eq_fromStream (env : JNIEnv) (cls : jclass) (obj : jobject)
    (P : List jbyte) :
    Java_com_labs_rpc_CDataPacket_fromBytes env cls (some (.byteArray P))
        = Java_com_labs_rpc_CDataPacket_fromStream env obj (some (.inputStream P))
      ∧ outcome (Java_com_labs_rpc_CDataPacket_fromBytes env cls (some (.byteArray P)))
        = outcome (Java_com_labs_rpc_CDataPacket_fromStream env obj (some (.inputStream P))) :=
  ⟨rfl, rfl⟩

/-! ## Round trip -/

/-- C1, as stated, fails at Int(42): packObject returns no byte array for it,
and unpackObject applied to what packObject returned does not give back the
object for Int(42) but the null reference. -/
theorem roundTrip_int42_fails :
    (roundTrip JNIEnv.clean packetClass int42).1 ≠ int42
      ∧ (roundTrip JNIEnv.clean packetClass int42).1 = NULL
      ∧ (Java_com_labs_rpc_CDataPacket_packObject JNIEnv.clean packetClass int42).1 = NULL :=
  ⟨fun h => Option.noConfusion h, rfl, rfl⟩

/-- C1, amended: for every reference v, packObject returns the null reference
and unpackObject applied to that result returns the null reference, in an
unchanged environment; the round trip gives back v exactly when v is itself
the null reference, and never gives back the object of a value. -/
theorem roundTrip_returns_null (env : JNIEnv) (cls : jclass) (obj : jobject) (v : Value) :
    Java_com_labs_rpc_CDataPacket_packObject env cls obj = (NULL, env)
      ∧ roundTrip env cls obj = (NULL, env)
      ∧ ((roundTrip env cls obj).1 = obj ↔ obj = NULL)
      ∧ (roundTrip env cls (some (.boxed v))).1 ≠ some (.boxed v) := by
  refine ⟨rfl, rfl, ?_, fun h => Option.noConfusion h⟩
  constructor
  · intro h
    exact h.symm
  · intro h
    rw [h]
    rfl

/-! ## Header -/

/-- C2, as stated, fails at payload size 4: makeHeaderBytes returns no byte
array at all, so in particular none of HEADER_SIZE bytes. -/
theorem makeHeaderBytes_no_header_for_4 :
    (¬ ∃ bs : List jbyte,
        (Java_com_labs_rpc_CDataPacket_makeHeaderBytes JNIEnv.clean int42PacketObject 4).1
            = some (.byteArray bs)
          ∧ bs.length = HEADER_SIZE)
      ∧ (Java_com_labs_rpc_CDataPacket_makeHeaderBytes JNIEnv.clean int42PacketObject 4).1
          = NULL := by
  refine ⟨?_, rfl⟩
  rintro ⟨bs, h, _⟩
  exact Option.noConfusion h

/-- C2, amended: HEADER_SIZE is 21, and for every receiver and every payload
size makeHeaderBytes returns the null reference in an unchanged environment:
it returns no byte array of any length. -/
theorem makeHeaderBytes_returns_null (env : JNIEnv) (obj : jobject) (payloadSize : jint)
    (bs : List jbyte) :
    HEADER_SIZE = 21
      ∧ Java_com_labs_rpc_CDataPacket_makeHeaderBytes env obj payloadSize = (NULL, env)
      ∧ (Java_com_labs_rpc_CDataPacket_makeHeaderBytes env obj payloadSize).1
          ≠ some (.byteArray bs) :=
  ⟨rfl, rfl, fun h => Option.noConfusion h⟩

/-! ## Packet assembly -/

/-- C3, as stated, fails for the header and the payload of the Int(42) packet:
makePacketBytes does not return the 25 bytes of the header followed by the
payload, but the null reference. -/
theorem makePacketBytes_int42_no_packet :
    (Java_com_labs_rpc_CDataPacket_makePacketBytes JNIEnv.clean int42PacketObject
        (some (.byteArray (encodeHeader FORMAT_INT 4))) (some (.byteArray int42Payload))).1
        ≠ some (.byteArray (encodeHeader FORMAT_INT 4 ++ int42Payload))
      ∧ (encodeHeader FORMAT_INT 4).length = HEADER_SIZE
      ∧ (encodeHeader FORMAT_INT 4 ++ int42Payload).length = HEADER_SIZE + 4
      ∧ (Java_com_labs_rpc_CDataPacket_makePacketBytes JNIEnv.clean int42PacketObject
          (some (.byteArray (encodeHeader FORMAT_INT 4))) (some (.byteArray int42Payload))).1
          = NULL :=
  ⟨fun h => Option.noConfusion h, by decide, by decide, rfl⟩

/-- C3, amended: for every header byte array h and payload byte array p (and
for every other pair of references) makePacketBytes returns the null reference
in an unchanged environment: it returns no byte array, neither h followed by p
nor any other. -/
theorem makePacketBytes_returns_null (env : JNIEnv) (obj : jobject) (h p bs : List jbyte)
    (headerBytes payloadBytes : jbyteArray) :
    Java_com_labs_rpc_CDataPacket_makePacketBytes env obj
        (some (.byteArray h)) (some (.byteArray p)) = (NULL, env)
      ∧ (Java_com_labs_rpc_CDataPacket_makePacketBytes env obj
          (some (.byteArray h)) (some (.byteArray p))).1 ≠ some (.byteArray bs)
      ∧ Java_com_labs_rpc_CDataPacket_makePacketBytes env obj headerBytes payloadBytes
          = (NULL, env) :=
  ⟨rfl, fun e => Option.noConfusion e, rfl⟩

/-! ## The Int(42) scenario -/

/-- C4, as stated, fails: packObject on Int(42) does not return the packet of
a 21-byte header with tag 0x45 and length 4 followed by 00 00 00 2A, and
fromBytes on that exact packet returns neither the object of Int(42) nor a
packet object holding it. -/
theorem int42_scenario_fails :
    (Java_com_labs_rpc_CDataPacket_packObject JNIEnv.clean packetClass int42).1
        ≠ some (.byteArray int42Packet)
      ∧ (Java_com_labs_rpc_CDataPacket_fromBytes JNIEnv.clean packetClass
          (some (.byteArray int42Packet))).1 ≠ int42
      ∧ (Java_com_labs_rpc_CDataPacket_fromBytes JNIEnv.clean packetClass
          (some (.byteArray int42Packet))).1 ≠ int42PacketObject :=
  ⟨fun h => Option.noConfusion h, fun h => Option.noConfusion h,
    fun h => Option.noConfusion h⟩

/-- C4, amended: FORMAT_INT is 0x45 and HEADER_SIZE is 21, and the packet that
the scenario describes is the 25 bytes 45, 00 00 00 00 00 00 00 04, twelve
zero bytes, 00 00 00 2A; packObject on Int(42) returns the null reference
instead of a packet, and fromBytes on that exact packet returns the null
reference instead of Int(42), both in an unchanged environment and without
raising an error. -/
theorem int42_scenario_returns_null :
    FORMAT_INT = 0x45
      ∧ HEADER_SIZE = 21
      ∧ int42Packet
          = [0x45, 0, 0, 0, 0, 0, 0, 0, 4, 0, 0, 0, 0, 0, 0, 0, 0, 0, 0, 0, 0,
             0x00, 0x00, 0x00, 0x2A]
      ∧ int42Packet.length = HEADER_SIZE + 4
      ∧ Java_com_labs_rpc_CDataPacket_packObject JNIEnv.clean packetClass int42
          = (NULL, JNIEnv.clean)
      ∧ Java_com_labs_rpc_CDataPacket_fromBytes JNIEnv.clean packetClass
          (some (.byteArray int42Packet)) = (NULL, JNIEnv.clean)
      ∧ outcome (Java_com_labs_rpc_CDataPacket_packObject JNIEnv.clean packetClass int42)
          = .returned NULL
      ∧ outcome (Java_com_labs_rpc_CDataPacket_fromBytes JNIEnv.clean packetClass
          (some (.byteArray int42Packet))) = .returned NULL :=
  ⟨rfl, rfl, by decide, by decide, rfl, rfl, rfl, rfl⟩

/-! ## Rejection of malformed packets -/

/-- C6, as stated, fails: for the packet whose header declares 100 payload
bytes and that supplies 50, fromBytes does not fail with TruncatedBuffer; it
returns the null reference, the very outcome it gives for the complete Int(42)
packet and for the packet with the unknown tag 0xFF. -/
theorem truncated_packet_not_rejected :
    outcome (Java_com_labs_rpc_CDataPacket_fromBytes JNIEnv.clean packetClass
        (some (.byteArray truncatedPacket))) ≠ .thrown (.codec .TruncatedBuffer)
      ∧ truncatedPacket.length = HEADER_SIZE + 50
      ∧ truncatedPacket.take 9 = [0x45, 0, 0, 0, 0, 0, 0, 0, 100]
      ∧ outcome (Java_com_labs_rpc_CDataPacket_fromBytes JNIEnv.clean packetClass
          (some (.byteArray truncatedPacket)))
        = outcome (Java_com_labs_rpc_CDataPacket_fromBytes JNIEnv.clean packetClass
          (some (.byteArray int42Packet)))
      ∧ outcome (Java_com_labs_rpc_CDataPacket_fromBytes JNIEnv.clean packetClass
          (some (.byteArray truncatedPacket)))
        = outcome (Java_com_labs_rpc_CDataPacket_fromBytes JNIEnv.clean packetClass
          (some (.byteArray unknownTagPacket))) :=
  ⟨fun h => Outcome.noConfusion h, by decide, by decide, rfl, rfl⟩

/-- C6, amended: for a packet whose header declares more payload bytes than
the packet supplies (100 declared, 50 supplied, and any other such packet),
fromBytes returns the null reference and raises no error, in an unchanged
environment; the caller gets the same outcome as for a packet that supplies
exactly the declared payload. -/
theorem truncated_packet_returns_null (env : JNIEnv) (cls : jclass) (formatTag declared : Nat)
    (payload : List jbyte) (short : payload.length < declared) :
    Java_com_labs_rpc_CDataPacket_fromBytes env cls
        (some (.byteArray (encodeHeader formatTag declared ++ payload))) = (NULL, env)
      ∧ outcome (Java_com_labs_rpc_CDataPacket_fromBytes JNIEnv.clean cls
          (some (.byteArray (encodeHeader formatTag declared ++ payload)))) = .returned NULL
      ∧ outcome (Java_com_labs_rpc_CDataPacket_fromBytes JNIEnv.clean cls
          (some (.byteArray (encodeHeader formatTag declared ++ payload))))
        = outcome (Java_com_labs_rpc_CDataPacket_fromBytes JNIEnv.clean cls
          (some (.byteArray (encodeHeader formatTag payload.length ++ payload))))
      ∧ (encodeHeader formatTag declared ++ payload).length < HEADER_SIZE + declared := by
  refine ⟨rfl, rfl, rfl, ?_⟩
  rw [List.length_append, encodeHeader_length]
  exact Nat.add_lt_add_left short 21

/-- C6, amended, at the packet of the specification: tag FORMAT_INT, 100
payload bytes declared, 50 supplied. -/
theorem truncated_packet_returns_null_witness :
    (List.replicate 50 (0 : jbyte)).length < 100
      ∧ Java_com_labs_rpc_CDataPacket_fromBytes JNIEnv.clean packetClass
          (some (.byteArray (encodeHeader FORMAT_INT 100 ++ List.replicate 50 0)))
          = (NULL, JNIEnv.clean)
      ∧ outcome (Java_com_labs_rpc_CDataPacket_fromBytes JNIEnv.clean packetClass
          (some (.byteArray (encodeHeader FORMAT_INT 100 ++ List.replicate 50 0))))
          = .returned NULL :=
  have h := truncated_packet_returns_null JNIEnv.clean packetClass FORMAT_INT 100
    (List.replicate 50 0) (by decide)
  ⟨by decide, h.1, h.2.1⟩

/-- C7, as stated, fails: 0xFF is none of the fifteen FORMAT_* codes, yet
fromBytes on a packet whose tag byte is 0xFF does not fail with UnknownTag; it
returns the null reference, the very outcome it gives for the well-formed
packet of Null. -/
theorem unknown_tag_not_rejected :
    outcome (Java_com_labs_rpc_CDataPacket_fromBytes JNIEnv.clean packetClass
        (some (.byteArray unknownTagPacket))) ≠ .thrown (.codec .UnknownTag)
      ∧ unknownTagPacket.head? = some 0xFF
      ∧ unknownTagPacket.length = HEADER_SIZE
      ∧ (∀ f : Format, f.code ≠ 0xFF)
      ∧ outcome (Java_com_labs_rpc_CDataPacket_fromBytes JNIEnv.clean packetClass
          (some (.byteArray unknownTagPacket)))
        = outcome (Java_com_labs_rpc_CDataPacket_fromBytes JNIEnv.clean packetClass
          (some (.byteArray nullPacket))) :=
  ⟨fun h => Outcome.noConfusion h, by decide, by decide, code_ne_0xFF, rfl⟩

/-- C7, amended: for a packet whose format tag byte is 0xFF, or any other byte
that is none of the fifteen FORMAT_* codes, fromBytes returns the null
reference and raises no error, in an unchanged environment; the caller gets
the same outcome as for the same packet under a registered tag. -/
theorem unknown_tag_returns_null (env : JNIEnv) (cls : jclass) (tag payloadLength : Nat)
    (payload : List jbyte) (g : Format) (byte : tag < 256)
    (unknown : ∀ f : Format, f.code ≠ tag) :
    Java_com_labs_rpc_CDataPacket_fromBytes env cls
        (some (.byteArray (encodeHeader tag payloadLength ++ payload))) = (NULL, env)
      ∧ outcome (Java_com_labs_rpc_CDataPacket_fromBytes JNIEnv.clean cls
          (some (.byteArray (encodeHeader tag payloadLength ++ payload)))) = .returned NULL
      ∧ outcome (Java_com_labs_rpc_CDataPacket_fromBytes JNIEnv.clean cls
          (some (.byteArray (encodeHeader tag payloadLength ++ payload))))
        = outcome (Java_com_labs_rpc_CDataPacket_fromBytes JNIEnv.clean cls
          (some (.byteArray (encodeHeader g.code payloadLength ++ payload))))
      ∧ (encodeHeader tag payloadLength ++ payload).head? = some ⟨tag, byte⟩
      ∧ encodeHeader tag payloadLength ≠ encodeHeader g.code payloadLength := by
  refine ⟨rfl, rfl, rfl, ?_, ?_⟩
  · simp [encodeHeader, Fin.ofNat, Nat.mod_eq_of_lt byte]
  · intro h
    have hg : g.code < 256 := by cases g <;> decide
    simp only [encodeHeader, List.cons.injEq, Fin.ofNat, Fin.mk.injEq,
      Nat.mod_eq_of_lt byte, Nat.mod_eq_of_lt hg] at h
    exact unknown g h.1.symm

/-- C7, amended, at the packet of the specification: tag byte 0xFF, empty
payload. -/
theorem unknown_tag_returns_null_witness :
    0xFF < 256
      ∧ (∀ f : Format, f.code ≠ 0xFF)
      ∧ Java_com_labs_rpc_CDataPacket_fromBytes JNIEnv.clean packetClass
          (some (.byteArray (encodeHeader 0xFF 0 ++ []))) = (NULL, JNIEnv.clean)
      ∧ outcome (Java_com_labs_rpc_CDataPacket_fromBytes JNIEnv.clean packetClass
          (some (.byteArray (encodeHeader 0xFF 0 ++ [])))) = .returned NULL :=
  have h := unknown_tag_returns_null JNIEnv.clean packetClass 0xFF 0 [] Format.NULL
    (by decide) code_ne_0xFF
  ⟨by decide, code_ne_0xFF, h.1, h.2.1⟩

end CDataPacket
